import Mathlib

/-!
Shallow embedding of the opportunity-discovery and profitability-decision
engine of the flash triangular-arbitrage bot (PancakeSwap / BiSwap on BSC),
together with proofs of the specification claims about it.

Conventions of the embedding:
* ethers BigNumber values (wei amounts, token amounts, fee parameters) are
  modelled as `Nat` (they are unsigned in every code path embedded here);
  BigNumber division truncates, which on `Nat` is exactly `Nat` division.
  A BigNumber division by zero throws in ethers; embeddings of code that can
  perform it surface that case explicitly.
* JavaScript numbers (prices in USD, percentages, multipliers) are modelled
  as `ℚ`.
* Asynchronous collaborator calls (router quotes, the profitability oracle,
  token metadata reads) are modelled as functions supplied by an environment
  record; a call that may throw returns `Except Unit`, a call whose failure
  is absorbed at its own site returns `Option` or a total value, mirroring
  where the source places its try/catch handlers.
* `Date.now()` is a `Nat` parameter; a single invocation of an embedded
  function sees one fixed value of it.
-/

namespace TriArb

/-- Token contract addresses are modelled as naturals. -/
abbrev Addr := Nat

/-- Result of tokenService.getTokenDetails: the fields the scanner reads.
The symbol string is only inspected for containing the substring USD (to pick
the default loan-amount sweep), so it is modelled by that Boolean. -/
structure TokenDetails where
  address : Addr
  decimals : Nat
  symbolHasUSD : Bool
deriving DecidableEq

/-- Fee numerator/denominator pairs cached by ProfitCalculator
(this.feeParameters). -/
structure FeeParameters where
  pancakeSwapFeeNumerator : Nat
  pancakeSwapFeeDenominator : Nat
  biswapFeeNumerator : Nat
  biswapFeeDenominator : Nat
deriving DecidableEq

/-- The constructor defaults: 25/9975 for PancakeSwap, 20/9980 for Biswap. -/
def defaultFeeParameters : FeeParameters :=
  { pancakeSwapFeeNumerator := 25
    pancakeSwapFeeDenominator := 9975
    biswapFeeNumerator := 20
    biswapFeeDenominator := 9980 }

/-- The fee denominator selected by the arbitrage direction in
calculateProfit (fromPancake picks the PancakeSwap pair). -/
def FeeParameters.selectedDenominator (fees : FeeParameters) (fromPancake : Bool) : Nat :=
  if fromPancake then fees.pancakeSwapFeeDenominator else fees.biswapFeeDenominator

/-- ethers.utils.formatUnits on an unsigned BigNumber: divide by 10^decimals
into an exact rational (the JS float rounding is abstracted away). -/
def formatUnitsQ (x : Nat) (decimals : Nat) : ℚ := (x : ℚ) / 10 ^ decimals

/-- The record returned by ProfitCalculator.calculateProfit on its success
path. Oracle amounts stay integral (BigNumber); USD figures are numbers. -/
structure ProfitResult where
  expectedProfit : Nat
  expectedPlatformFee : Nat
  expectedUserProfit : Nat
  profitUSD : ℚ
  netProfitUSD : ℚ
  gasCostUSD : ℚ
  loanAmountUSD : ℚ
  profitPercentage : ℚ
  isProfit : Bool
deriving DecidableEq

/-- calculateProfit returns either the full result record or, from its catch
block, a record carrying only isProfit = false and the error message. -/
inductive CalcOutcome where
  | ok (r : ProfitResult)
  | err
deriving DecidableEq

/-- ProfitCalculator.calculateProfit. Inputs that the source obtains from
collaborators are passed explicitly:
* oracleResult: the checkArbitrageProfitability call, already collapsed to
  none when the call throws or does not yield exactly three values;
* gasPriceWei: the value of networkService.getGasPrice(1.1), which always
  yields a value (it catches internally);
* bnbPrice: this.priceService.bnbPrice;
* tokenPriceUSD: what priceService.getTokenPriceUSD returns for token A
  (convertToUSD multiplies the formatted amount by it and cannot throw).
The flash-loan fee is computed exactly as in the source; its BigNumber
division throws when the selected denominator is zero, which the catch block
turns into the error outcome. The fee value itself is dead: it does not flow
into the returned record. -/
def calculateProfit (minProfitPercentage : ℚ) (fees : FeeParameters)
    (oracleResult : Option (Nat × Nat × Nat)) (gasPriceWei : Nat) (gasLimit : Nat)
    (bnbPrice : ℚ) (tokenPriceUSD : ℚ) (decimals : Nat)
    (loanAmount : Nat) (fromPancake : Bool) : CalcOutcome :=
  match oracleResult with
  | none => .err
  | some (expectedProfit, expectedPlatformFee, expectedUserProfit) =>
    let gasCostWei := gasPriceWei * gasLimit
    let gasCostBNB : ℚ := formatUnitsQ gasCostWei 18
    let gasCostUSD : ℚ := gasCostBNB * bnbPrice
    if fees.selectedDenominator fromPancake = 0 then
      .err
    else
      let _flashLoanFee : Nat :=
        if fromPancake then
          loanAmount * fees.pancakeSwapFeeNumerator / fees.pancakeSwapFeeDenominator + 1
        else
          loanAmount * fees.biswapFeeNumerator / fees.biswapFeeDenominator + 1
      let profitUSD : ℚ := formatUnitsQ expectedUserProfit decimals * tokenPriceUSD
      let loanAmountUSD : ℚ := formatUnitsQ loanAmount decimals * tokenPriceUSD
      let netProfitUSD : ℚ := profitUSD - gasCostUSD
      let profitPercentage : ℚ :=
        if loanAmountUSD > 0 then netProfitUSD / loanAmountUSD * 100 else 0
      .ok { expectedProfit := expectedProfit
            expectedPlatformFee := expectedPlatformFee
            expectedUserProfit := expectedUserProfit
            profitUSD := profitUSD
            netProfitUSD := netProfitUSD
            gasCostUSD := gasCostUSD
            loanAmountUSD := loanAmountUSD
            profitPercentage := profitPercentage
            isProfit := decide (profitPercentage ≥ minProfitPercentage) }

/-- ProfitCalculator.isProfitable: false on a missing or error result,
otherwise the isProfit flag re-checked against the threshold. -/
def isProfitable (minProfitPercentage : ℚ) (res : CalcOutcome) : Bool :=
  match res with
  | .err => false
  | .ok r => r.isProfit && decide (r.profitPercentage ≥ minProfitPercentage)

/-- C1. For every candidate whose oracle call succeeds (and whose run does
not abort: the direction-selected fee denominator is nonzero, so the dead
flash-loan-fee division does not throw), calculateProfit returns the success
record with net profit = gross profit value minus gas cost value, profit
percentage = net profit / loan value x 100 when the loan value is positive
and 0 otherwise, and an accept flag that is true iff the profit percentage
is at least the configured minimum-profit-percentage threshold. -/
theorem calculateProfit_decision (minPct : ℚ) (fees : FeeParameters)
    (ep epf eup : Nat) (gasPriceWei gasLimit : Nat) (bnbPrice tokenPriceUSD : ℚ)
    (decimals loanAmount : Nat) (fromPancake : Bool)
    (hden : fees.selectedDenominator fromPancake ≠ 0) :
    ∃ r : ProfitResult,
      calculateProfit minPct fees (some (ep, epf, eup)) gasPriceWei gasLimit
        bnbPrice tokenPriceUSD decimals loanAmount fromPancake = .ok r ∧
      r.netProfitUSD = r.profitUSD - r.gasCostUSD ∧
      r.profitPercentage =
        (if r.loanAmountUSD > 0 then r.netProfitUSD / r.loanAmountUSD * 100 else 0) ∧
      (r.isProfit = true ↔ r.profitPercentage ≥ minPct) := by
  simp only [calculateProfit, if_neg hden]
  exact ⟨_, rfl, rfl, rfl, by simp⟩

/-- Witness for C1, at the numeric example of the claim: gas cost value 2.00
(gas price 2e18 wei, gas limit 1, BNB at 1 USD), gross profit value 10.00 and
loan value 1000.00 (token price 1 USD, 0 decimals), threshold 1 percent: the
hypothesis holds, the general theorem applies, and evaluation gives net
profit 8.00, profit percentage 0.8 and a rejected (isProfit = false)
candidate. -/
theorem calculateProfit_decision_witness :
    (defaultFeeParameters.selectedDenominator true ≠ 0) ∧
    (∃ r : ProfitResult,
      calculateProfit 1 defaultFeeParameters (some (10, 0, 10)) (2 * 10 ^ 18) 1
        1 1 0 1000 true = .ok r ∧
      r.netProfitUSD = r.profitUSD - r.gasCostUSD ∧
      r.profitPercentage =
        (if r.loanAmountUSD > 0 then r.netProfitUSD / r.loanAmountUSD * 100 else 0) ∧
      (r.isProfit = true ↔ r.profitPercentage ≥ 1)) ∧
    (calculateProfit 1 defaultFeeParameters (some (10, 0, 10)) (2 * 10 ^ 18) 1
        1 1 0 1000 true = .ok
      { expectedProfit := 10
        expectedPlatformFee := 0
        expectedUserProfit := 10
        profitUSD := 10
        netProfitUSD := 8
        gasCostUSD := 2
        loanAmountUSD := 1000
        profitPercentage := 4 / 5
        isProfit := false }) :=
  ⟨by decide,
   calculateProfit_decision 1 defaultFeeParameters 10 0 10 (2 * 10 ^ 18) 1 1 1 0 1000 true
     (by decide),
   by
    simp only [calculateProfit, defaultFeeParameters, FeeParameters.selectedDenominator,
      formatUnitsQ, if_true, CalcOutcome.ok.injEq, ProfitResult.mk.injEq]
    norm_num⟩

/-- C10 counterexample. The claim fails as stated: the stored fee parameters
do flow into the outcome through the flash-loan-fee BigNumber division. With
the PancakeSwap fee denominator set to 0 (and direction fromPancake), that
division throws, so the run returns the error record, while the identical
run under the default fee parameters returns the full success record: the
two outcomes differ although every other input and response is identical. -/
theorem calculateProfit_fee_dependence_counterexample :
    calculateProfit 1
      { pancakeSwapFeeNumerator := 25
        pancakeSwapFeeDenominator := 0
        biswapFeeNumerator := 20
        biswapFeeDenominator := 9980 }
      (some (10, 0, 10)) (2 * 10 ^ 18) 1 1 1 0 1000 true ≠
    calculateProfit 1 defaultFeeParameters
      (some (10, 0, 10)) (2 * 10 ^ 18) 1 1 1 0 1000 true := by
  simp [calculateProfit, FeeParameters.selectedDenominator, defaultFeeParameters]

/-- C10 amended. Provided the direction-selected fee denominator is nonzero
in both runs (so the dead flash-loan-fee division throws in neither), two
runs of calculateProfit identical in every input and collaborator response
but differing in the stored fee numerator/denominator pairs return identical
results: the flash-loan fee does not flow into the returned record. -/
theorem calculateProfit_fee_independent (minPct : ℚ) (fees₁ fees₂ : FeeParameters)
    (oracleResult : Option (Nat × Nat × Nat)) (gasPriceWei gasLimit : Nat)
    (bnbPrice tokenPriceUSD : ℚ) (decimals loanAmount : Nat) (fromPancake : Bool)
    (h₁ : fees₁.selectedDenominator fromPancake ≠ 0)
    (h₂ : fees₂.selectedDenominator fromPancake ≠ 0) :
    calculateProfit minPct fees₁ oracleResult gasPriceWei gasLimit
      bnbPrice tokenPriceUSD decimals loanAmount fromPancake =
    calculateProfit minPct fees₂ oracleResult gasPriceWei gasLimit
      bnbPrice tokenPriceUSD decimals loanAmount fromPancake := by
  match oracleResult with
  | none => rfl
  | some (ep, epf, eup) => simp only [calculateProfit, if_neg h₁, if_neg h₂]

/-- Witness for the amended C10: the default fee parameters versus a distinct
nonzero pair give byte-identical outcomes on a concrete run. -/
theorem calculateProfit_fee_independent_witness :
    (defaultFeeParameters.selectedDenominator true ≠ 0) ∧
    (FeeParameters.selectedDenominator
      { pancakeSwapFeeNumerator := 30
        pancakeSwapFeeDenominator := 10000
        biswapFeeNumerator := 10
        biswapFeeDenominator := 9990 } true ≠ 0) ∧
    calculateProfit 1 defaultFeeParameters
      (some (10, 0, 10)) (2 * 10 ^ 18) 1 1 1 0 1000 true =
    calculateProfit 1
      { pancakeSwapFeeNumerator := 30
        pancakeSwapFeeDenominator := 10000
        biswapFeeNumerator := 10
        biswapFeeDenominator := 9990 }
      (some (10, 0, 10)) (2 * 10 ^ 18) 1 1 1 0 1000 true :=
  ⟨by decide, by decide,
   calculateProfit_fee_independent 1 defaultFeeParameters _ (some (10, 0, 10))
     (2 * 10 ^ 18) 1 1 1 0 1000 true (by decide) (by decide)⟩

/-! Embedding of ArbitrageChecker (the triangular-arbitrage scanner). -/

/-- A JavaScript try/catch whose catch block returns a fallback value. -/
def tryCatch {α : Type} (x : Except Unit α) (fallback : α) : α :=
  match x with
  | .ok a => a
  | .error _ => fallback

/-- The array argument passed to checkArbitrageProfitability: the three hop
paths, the minimum amounts out and the direction flag. -/
structure ArbData where
  path1 : List Addr
  path2 : List Addr
  path3 : List Addr
  minAmountsOut : List Nat
  direction : Bool
deriving DecidableEq

/-- Collaborator responses and configuration seen by one scan invocation.
Each field models the value a call site receives: a quote call may throw
(.error), return a falsy or short amounts array (.ok none), or produce the
amounts[1] entry (.ok (some v)); the oracle is already collapsed to none on
a throw or a malformed triple; getTokenDetails and getTokenPriceUSD absorb
their failures internally and are total. -/
structure ScanEnv where
  minProfitPercentage : ℚ
  gasLimit : Nat
  fees : FeeParameters
  gasPriceWei : Nat
  bnbPrice : ℚ
  tokenPrice : Addr → ℚ
  details : Addr → TokenDetails
  quote : Bool → Nat → Addr → Addr → Except Unit (Option Nat)
  oracle : ArbData → Nat → Bool → Option (Nat × Nat × Nat)

/-- Loop body of ArbitrageChecker.checkTriangularPrice: sequential two-token
getAmountsOut hops threading each output into the next input, returning none
on a falsy or short amounts array and propagating a thrown error. -/
def triangularPriceBody (q : Nat → Addr → Addr → Except Unit (Option Nat)) :
    Nat → List Addr → Except Unit (Option Nat)
  | amountIn, t₁ :: t₂ :: rest => do
    match ← q amountIn t₁ t₂ with
    | none => pure none
    | some v => triangularPriceBody q v (t₂ :: rest)
  | amountIn, _ => pure (some amountIn)

/-- ArbitrageChecker.checkTriangularPrice: the loop wrapped in try/catch
returning null on error. -/
def checkTriangularPrice (q : Nat → Addr → Addr → Except Unit (Option Nat))
    (amountIn : Nat) (path : List Addr) : Option Nat :=
  tryCatch (triangularPriceBody q amountIn path) none

/-- ArbitrageChecker.checkPriceGap: simulate the full cycle A-B-C-A on both
routers for one whole token of A, and return the BigNumber percentage
floor(|pancake - biswap| * 100 / pancake) as a JS number; 0 when either
simulation fails or the PancakeSwap cycle output is zero. -/
def checkPriceGap (env : ScanEnv) (tokenA tokenB tokenC : Addr) (decimalsA : Nat) : ℚ :=
  let testAmount := 10 ^ decimalsA
  match checkTriangularPrice (env.quote true) testAmount [tokenA, tokenB, tokenC, tokenA],
        checkTriangularPrice (env.quote false) testAmount [tokenA, tokenB, tokenC, tokenA] with
  | some pancakePrice, some biswapPrice =>
    if pancakePrice ≠ 0 then
      ((Int.natAbs ((pancakePrice : ℤ) - (biswapPrice : ℤ)) * 100 / pancakePrice : Nat) : ℚ)
    else 0
  | _, _ => 0

/-- The direction actually used by checkArbitrageLoop: the caller-requested
base direction, reversed when the price gap is at least 5 percent. -/
def effectiveDirection (priceGap : ℚ) (direction : Bool) : Bool :=
  if priceGap ≥ 5 then !direction else direction

/-- Token-triple configuration: token-name keys (as naturals) mapped to
addresses in object-key order, the two per-exchange pair-address tables
(whose values may be null), and the optional loan-amount sweep. -/
structure PairConfig where
  tokens : List (Nat × Addr)
  pancakeswapPairs : List ((Nat × Nat) × Option Addr)
  biswapPairs : List ((Nat × Nat) × Option Addr)
  testAmounts : Option (List ℚ)

/-- pairConfig.tokens[key] object access. -/
def tokenLookup (cfg : PairConfig) (key : Nat) : Option Addr :=
  (cfg.tokens.find? (fun p => p.1 = key)).map (·.2)

/-- The flash-loan-pair search of checkArbitrageLoop: the first table entry
whose two token keys resolve to tokenA and tokenB in either order; the entry
value itself may be null, which the caller treats the same as no match. -/
def findFlashLoanPair (cfg : PairConfig) (pairs : List ((Nat × Nat) × Option Addr))
    (tokenA tokenB : Addr) : Option Addr :=
  match pairs.find? (fun e =>
    (tokenLookup cfg e.1.1 == some tokenA && tokenLookup cfg e.1.2 == some tokenB) ||
    (tokenLookup cfg e.1.1 == some tokenB && tokenLookup cfg e.1.2 == some tokenA)) with
  | some e => e.2
  | none => none

/-- One hop of ArbitrageChecker.calculateSwapOutputs: its own try/catch plus
the falsy/short amounts check, both collapsing to a failed result. -/
def hopQuote (env : ScanEnv) (isPancake : Bool) (amountIn : Nat)
    (tokenIn tokenOut : Addr) : Option Nat :=
  match env.quote isPancake amountIn tokenIn tokenOut with
  | .error _ => none
  | .ok none => none
  | .ok (some v) => some v

/-- ArbitrageChecker.calculateSwapOutputs: hops 1 and 3 on the starting
exchange chosen by direction (true is PancakeSwap), hop 2 on the other, each
output feeding the next input; any hop failure fails the whole amount. -/
def calculateSwapOutputs (env : ScanEnv) (direction : Bool) (loanAmount : Nat)
    (tokenA tokenB tokenC : Addr) : Option (Nat × Nat × Nat) := do
  let amountOut1 ← hopQuote env direction loanAmount tokenA tokenB
  let amountOut2 ← hopQuote env (!direction) amountOut1 tokenB tokenC
  let amountOut3 ← hopQuote env direction amountOut2 tokenC tokenA
  some (amountOut1, amountOut2, amountOut3)

/-- ethers.utils.parseUnits for the JS numbers of the loan-amount sweep. -/
def parseUnitsQ (amount : ℚ) (decimals : Nat) : Nat :=
  (amount * 10 ^ decimals).floor.toNat

/-- The profit percentage read off a profitability result variable. -/
def CalcOutcome.pct : CalcOutcome → ℚ
  | .ok r => r.profitPercentage
  | .err => 0

/-- The best-candidate accumulator of the loan sweep inside
checkArbitrageLoop: bestLoanAmount, bestMinAmountsOut and bestProfitResult,
present only once some amount has qualified. -/
structure BestEntry where
  loanAmount : Nat
  minOut1 : Nat
  minOut2 : Nat
  minOut3 : Nat
  profitResult : CalcOutcome

/-- One iteration of the loan sweep: simulate the three hops, derive the
three minimum outputs at 1 percent slippage (floor of 99 percent), discard
the amount on a failed simulation or a zero minimum, evaluate profitability,
and keep the amount when it is profitable and strictly better than the
incumbent best. -/
def sweepStep (env : ScanEnv) (direction : Bool) (tokenA tokenB tokenC : Addr)
    (decimalsA : Nat) (best : Option BestEntry) (loanAmount : Nat) : Option BestEntry :=
  match calculateSwapOutputs env direction loanAmount tokenA tokenB tokenC with
  | none => best
  | some (amountOut1, amountOut2, amountOut3) =>
    let minAmountOut1 := amountOut1 * 99 / 100
    let minAmountOut2 := amountOut2 * 99 / 100
    let minAmountOut3 := amountOut3 * 99 / 100
    if minAmountOut1 = 0 || minAmountOut2 = 0 || minAmountOut3 = 0 then best
    else
      let arbData : ArbData :=
        { path1 := [tokenA, tokenB]
          path2 := [tokenB, tokenC]
          path3 := [tokenC, tokenA]
          minAmountsOut := [minAmountOut1, minAmountOut2, minAmountOut3]
          direction := direction }
      let profitResult := calculateProfit env.minProfitPercentage env.fees
        (env.oracle arbData loanAmount direction) env.gasPriceWei env.gasLimit
        env.bnbPrice (env.tokenPrice tokenA) decimalsA loanAmount direction
      if isProfitable env.minProfitPercentage profitResult &&
          (best.isNone || decide (profitResult.pct > (best.map (·.profitResult.pct)).getD 0)) then
        some { loanAmount := loanAmount
               minOut1 := minAmountOut1
               minOut2 := minAmountOut2
               minOut3 := minAmountOut3
               profitResult := profitResult }
      else best

/-- The accepted opportunity record returned by checkArbitrageLoop. -/
structure Opportunity where
  flashLoanPair : Addr
  tokenA : Addr
  tokenB : Addr
  tokenC : Addr
  loanAmount : Nat
  arbData : ArbData
  profitResult : CalcOutcome
  direction : Bool
  directionReversed : Bool
  priceGap : ℚ

/-- ArbitrageChecker.checkArbitrageLoop for one rotation of a triple and one
caller-requested base direction: price-gap heuristic, flash-loan-pair
resolution (skip on a missing or null pair address), loan-amount sweep, and
the final profitability gate on the best candidate. -/
def checkArbitrageLoop (env : ScanEnv) (cfg : PairConfig)
    (tokenA tokenB tokenC : Addr) (direction : Bool) : Option Opportunity :=
  let detailsA := env.details tokenA
  let priceGap := checkPriceGap env tokenA tokenB tokenC detailsA.decimals
  let dir := effectiveDirection priceGap direction
  match findFlashLoanPair cfg (if dir then cfg.pancakeswapPairs else cfg.biswapPairs)
      tokenA tokenB with
  | none => none
  | some flashAddr =>
    let testAmounts := cfg.testAmounts.getD
      (if detailsA.symbolHasUSD then [1000, 10000, 50000, 100000] else [1/2, 1, 2, 5])
    let loanAmounts := testAmounts.map (fun a => parseUnitsQ a detailsA.decimals)
    match loanAmounts.foldl (sweepStep env dir tokenA tokenB tokenC detailsA.decimals) none with
    | none => none
    | some best =>
      if isProfitable env.minProfitPercentage best.profitResult then
        some { flashLoanPair := flashAddr
               tokenA := tokenA
               tokenB := tokenB
               tokenC := tokenC
               loanAmount := best.loanAmount
               arbData :=
                 { path1 := [tokenA, tokenB]
                   path2 := [tokenB, tokenC]
                   path3 := [tokenC, tokenA]
                   minAmountsOut := [best.minOut1, best.minOut2, best.minOut3]
                   direction := dir }
               profitResult := best.profitResult
               direction := dir
               directionReversed := direction != dir
               priceGap := priceGap }
      else none

/-- The address a token-name key of the configuration resolves to (keys
enumerated by Object.keys always resolve). -/
def tokenAddr (cfg : PairConfig) (key : Nat) : Addr :=
  (tokenLookup cfg key).getD 0

/-- ArbitrageChecker.checkTriangularArbitrage: try every cyclic rotation of
the configured token keys as (start, mid, end), collecting the rotations
that produce an opportunity. -/
def checkTriangularArbitrage (env : ScanEnv) (cfg : PairConfig) (direction : Bool) :
    List Opportunity :=
  let keys := cfg.tokens.map Prod.fst
  let n := keys.length
  (List.range n).filterMap (fun i =>
    checkArbitrageLoop env cfg
      (tokenAddr cfg (keys.getD i 0))
      (tokenAddr cfg (keys.getD ((i + 1) % n) 0))
      (tokenAddr cfg (keys.getD ((i + 2) % n) 0))
      direction)

/-- The descending-profit comparator of the final sort. -/
def oppLE (a b : Opportunity) : Bool := decide (b.profitResult.pct ≤ a.profitResult.pct)

/-- ArbitrageChecker.checkArbitrageOpportunities: both base directions of
every configured triple, flattened and sorted by profit percentage in
descending order. -/
def checkArbitrageOpportunities (env : ScanEnv) (pairs : List PairConfig) :
    List Opportunity :=
  (pairs.flatMap (fun p =>
    checkTriangularArbitrage env p true ++ checkTriangularArbitrage env p false)).mergeSort
    oppLE

/-- Invariant carried by the best-candidate accumulator through the loan
sweep: the stored result is profitable and the stored minimum outputs are
the nonzero 99-percent floors of the simulated hop outputs. -/
def goodBest (env : ScanEnv) (direction : Bool) (tokenA tokenB tokenC : Addr)
    (b : BestEntry) : Prop :=
  isProfitable env.minProfitPercentage b.profitResult = true ∧
  b.minOut1 ≠ 0 ∧ b.minOut2 ≠ 0 ∧ b.minOut3 ≠ 0 ∧
  ∃ out1 out2 out3,
    calculateSwapOutputs env direction b.loanAmount tokenA tokenB tokenC =
      some (out1, out2, out3) ∧
    b.minOut1 = out1 * 99 / 100 ∧ b.minOut2 = out2 * 99 / 100 ∧ b.minOut3 = out3 * 99 / 100

lemma sweepStep_preserves_good (env : ScanEnv) (direction : Bool)
    (tokenA tokenB tokenC : Addr) (decimalsA : Nat) (best : Option BestEntry)
    (loanAmount : Nat)
    (h : ∀ b, best = some b → goodBest env direction tokenA tokenB tokenC b) :
    ∀ b, sweepStep env direction tokenA tokenB tokenC decimalsA best loanAmount = some b →
      goodBest env direction tokenA tokenB tokenC b := by
  intro b hb
  unfold sweepStep at hb
  dsimp only [] at hb
  split at hb
  · exact h b hb
  · next out1 out2 out3 heq =>
    split at hb
    · exact h b hb
    · next hzero =>
      split at hb
      · next hgate =>
        cases hb
        have hprof := (Bool.and_eq_true _ _).mp hgate |>.1
        simp only [Bool.or_eq_true, decide_eq_true_eq, not_or] at hzero
        obtain ⟨⟨hz1, hz2⟩, hz3⟩ := hzero
        exact ⟨hprof, hz1, hz2, hz3, out1, out2, out3, heq, rfl, rfl, rfl⟩
      · exact h b hb

lemma foldl_sweep_good (env : ScanEnv) (direction : Bool)
    (tokenA tokenB tokenC : Addr) (decimalsA : Nat) (loanAmounts : List Nat)
    (best : Option BestEntry)
    (h : ∀ b, best = some b → goodBest env direction tokenA tokenB tokenC b) :
    ∀ b, loanAmounts.foldl (sweepStep env direction tokenA tokenB tokenC decimalsA) best
        = some b →
      goodBest env direction tokenA tokenB tokenC b := by
  induction loanAmounts generalizing best with
  | nil => exact h
  | cons la rest ih =>
    intro b hb
    exact ih _ (sweepStep_preserves_good env direction tokenA tokenB tokenC decimalsA
      best la h) b hb

lemma isProfitable_ok (m : ℚ) (res : CalcOutcome) (h : isProfitable m res = true) :
    ∃ r : ProfitResult, res = .ok r ∧ r.profitPercentage ≥ m := by
  cases res with
  | err => simp [isProfitable] at h
  | ok r =>
    refine ⟨r, rfl, ?_⟩
    simp only [isProfitable, Bool.and_eq_true, decide_eq_true_eq] at h
    exact h.2

lemma checkArbitrageLoop_spec (env : ScanEnv) (cfg : PairConfig)
    (tokenA tokenB tokenC : Addr) (direction : Bool) (opp : Opportunity)
    (h : checkArbitrageLoop env cfg tokenA tokenB tokenC direction = some opp) :
    (∃ r : ProfitResult, opp.profitResult = .ok r ∧
      r.profitPercentage ≥ env.minProfitPercentage) ∧
    ∃ out1 out2 out3,
      calculateSwapOutputs env opp.direction opp.loanAmount opp.tokenA opp.tokenB opp.tokenC
        = some (out1, out2, out3) ∧
      opp.arbData.minAmountsOut = [out1 * 99 / 100, out2 * 99 / 100, out3 * 99 / 100] ∧
      0 < out1 * 99 / 100 ∧ 0 < out2 * 99 / 100 ∧ 0 < out3 * 99 / 100 := by
  unfold checkArbitrageLoop at h
  dsimp only [] at h
  split at h
  · cases h
  · next flashAddr hflash =>
    split at h
    · cases h
    · next best hbest =>
      have hgood := foldl_sweep_good env _ tokenA tokenB tokenC _ _ none
        (by intro b hb; cases hb) best hbest
      split at h
      · next hprof =>
        cases h
        obtain ⟨hisp, hm1, hm2, hm3, out1, out2, out3, hswap, he1, he2, he3⟩ := hgood
        refine ⟨isProfitable_ok _ _ hisp, out1, out2, out3, hswap, ?_, ?_, ?_, ?_⟩
        · simp [he1, he2, he3]
        · omega
        · omega
        · omega
      · cases h

/-- C2. Every opportunity in the list returned by the scanner has a profit
percentage at least the configured minimum-profit threshold, and its three
minimum-output values are exactly the floors of 99 percent of the three
simulated hop outputs (1 percent slippage tolerance) and are all strictly
positive; a swept loan amount whose derived minimum outputs include a zero
is discarded by the sweep and can never appear in the returned list. -/
theorem scanner_accepted_invariant (env : ScanEnv) (pairs : List PairConfig)
    (opp : Opportunity) (h : opp ∈ checkArbitrageOpportunities env pairs) :
    (∃ r : ProfitResult, opp.profitResult = .ok r ∧
      r.profitPercentage ≥ env.minProfitPercentage) ∧
    ∃ out1 out2 out3,
      calculateSwapOutputs env opp.direction opp.loanAmount opp.tokenA opp.tokenB opp.tokenC
        = some (out1, out2, out3) ∧
      opp.arbData.minAmountsOut = [out1 * 99 / 100, out2 * 99 / 100, out3 * 99 / 100] ∧
      0 < out1 * 99 / 100 ∧ 0 < out2 * 99 / 100 ∧ 0 < out3 * 99 / 100 := by
  unfold checkArbitrageOpportunities at h
  rw [List.mem_mergeSort] at h
  obtain ⟨cfg, _, hmem⟩ := List.mem_flatMap.mp h
  rcases List.mem_append.mp hmem with hside | hside <;>
  · unfold checkTriangularArbitrage at hside
    obtain ⟨i, _, hloop⟩ := List.mem_filterMap.mp hside
    exact checkArbitrageLoop_spec env cfg _ _ _ _ opp hloop

/-- A concrete triple configuration on token keys 0,1,2 with addresses
10,11,12, configured pair addresses for the 0-1 edge on both exchanges, and
a single-amount sweep. -/
def witnessCfg : PairConfig :=
  { tokens := [(0, 10), (1, 11), (2, 12)]
    pancakeswapPairs := [((0, 1), some 99)]
    biswapPairs := [((0, 1), some 98)]
    testAmounts := some [1] }

/-- A concrete environment where every hop doubles its input, gas is free,
token A is worth 1 USD, and the oracle reports the loan amount itself as
user profit. -/
def witnessEnv : ScanEnv :=
  { minProfitPercentage := 1
    gasLimit := 0
    fees := defaultFeeParameters
    gasPriceWei := 0
    bnbPrice := 0
    tokenPrice := fun _ => 1
    details := fun a => { address := a, decimals := 0, symbolHasUSD := false }
    quote := fun _ amountIn _ _ => .ok (some (amountIn * 2))
    oracle := fun _ loanAmount _ => some (loanAmount, 0, loanAmount) }

/-- The profitability record produced in the witness environment for a loan
of one whole token A. -/
def witnessProfitResult : ProfitResult :=
  { expectedProfit := 1
    expectedPlatformFee := 0
    expectedUserProfit := 1
    profitUSD := 1
    netProfitUSD := 1
    gasCostUSD := 0
    loanAmountUSD := 1
    profitPercentage := 100
    isProfit := true }

/-- The best sweep entry of the witness run. -/
def witnessBest : BestEntry :=
  { loanAmount := 1, minOut1 := 1, minOut2 := 3, minOut3 := 7
    profitResult := .ok witnessProfitResult }

/-- The opportunity the witness run returns for the identity rotation in the
PancakeSwap-first base direction. -/
def witnessOpp : Opportunity :=
  { flashLoanPair := 99, tokenA := 10, tokenB := 11, tokenC := 12, loanAmount := 1
    arbData :=
      { path1 := [10, 11], path2 := [11, 12], path3 := [12, 10]
        minAmountsOut := [1, 3, 7], direction := true }
    profitResult := .ok witnessProfitResult
    direction := true, directionReversed := false, priceGap := 0 }

lemma witness_calculateProfit :
    calculateProfit 1 defaultFeeParameters (some (1, 0, 1)) 0 0 0 1 0 1 true =
      .ok witnessProfitResult := by
  simp only [calculateProfit, defaultFeeParameters, FeeParameters.selectedDenominator,
    formatUnitsQ, witnessProfitResult, if_true, CalcOutcome.ok.injEq, ProfitResult.mk.injEq]
  norm_num

lemma witness_checkPriceGap : checkPriceGap witnessEnv 10 11 12 0 = 0 := by
  simp [checkPriceGap, checkTriangularPrice, triangularPriceBody, witnessEnv, tryCatch,
    Bind.bind, Except.bind, Pure.pure, Except.pure]

lemma witness_sweepStep : sweepStep witnessEnv true 10 11 12 0 none 1 = some witnessBest := by
  have hswap : calculateSwapOutputs witnessEnv true 1 10 11 12 = some (2, 4, 8) := by decide
  simp only [sweepStep, hswap]
  norm_num [witnessEnv, witness_calculateProfit, isProfitable, witnessProfitResult, witnessBest]

lemma witness_findFlashLoanPair :
    findFlashLoanPair witnessCfg witnessCfg.pancakeswapPairs 10 11 = some 99 := by
  decide

lemma witness_checkArbitrageLoop :
    checkArbitrageLoop witnessEnv witnessCfg 10 11 12 true = some witnessOpp := by
  have hdet : witnessEnv.details 10 = { address := 10, decimals := 0, symbolHasUSD := false } :=
    rfl
  have hta : witnessCfg.testAmounts = some [1] := rfl
  unfold checkArbitrageLoop
  rw [hdet, hta]
  dsimp only []
  rw [witness_checkPriceGap]
  have hfloor : (Rat.floor (1 : ℚ)).toNat = 1 := rfl
  have hmin : witnessEnv.minProfitPercentage = 1 := rfl
  norm_num [effectiveDirection, witness_findFlashLoanPair, parseUnitsQ, hfloor, hmin,
    witness_sweepStep, isProfitable, witnessProfitResult, witnessBest, witnessOpp]

lemma witness_scan_mem : witnessOpp ∈ checkArbitrageOpportunities witnessEnv [witnessCfg] := by
  unfold checkArbitrageOpportunities
  rw [List.mem_mergeSort]
  refine List.mem_flatMap.mpr ⟨witnessCfg, by simp, List.mem_append.mpr (Or.inl ?_)⟩
  unfold checkTriangularArbitrage
  dsimp only []
  refine List.mem_filterMap.mpr ⟨0, by decide, ?_⟩
  have hkeys : witnessCfg.tokens.map Prod.fst = [0, 1, 2] := rfl
  rw [hkeys]
  have h0 : tokenAddr witnessCfg 0 = 10 := rfl
  have h1 : tokenAddr witnessCfg 1 = 11 := rfl
  have h2 : tokenAddr witnessCfg 2 = 12 := rfl
  norm_num [h0, h1, h2]
  exact witness_checkArbitrageLoop

/-- Witness for C2: in the concrete environment the scan returns the
concrete opportunity, and the invariant theorem instantiates on it. -/
theorem scanner_accepted_invariant_witness :
    (witnessOpp ∈ checkArbitrageOpportunities witnessEnv [witnessCfg]) ∧
    ((∃ r : ProfitResult, witnessOpp.profitResult = .ok r ∧
        r.profitPercentage ≥ witnessEnv.minProfitPercentage) ∧
      ∃ out1 out2 out3,
        calculateSwapOutputs witnessEnv witnessOpp.direction witnessOpp.loanAmount
            witnessOpp.tokenA witnessOpp.tokenB witnessOpp.tokenC = some (out1, out2, out3) ∧
        witnessOpp.arbData.minAmountsOut =
          [out1 * 99 / 100, out2 * 99 / 100, out3 * 99 / 100] ∧
        0 < out1 * 99 / 100 ∧ 0 < out2 * 99 / 100 ∧ 0 < out3 * 99 / 100) :=
  ⟨witness_scan_mem,
   scanner_accepted_invariant witnessEnv [witnessCfg] witnessOpp witness_scan_mem⟩

lemma effectiveDirection_eq_not_iff (gap : ℚ) (direction : Bool) :
    (effectiveDirection gap direction = !direction) ↔ 5 ≤ gap := by
  unfold effectiveDirection
  split
  · next h => simp [h]
  · next h => simp [h]

/-- C3. For a rotation whose two independent full 3-hop cycle simulations on
one whole token of A succeed with a nonzero PancakeSwap output, the scanner
reverses the caller-requested base direction if and only if the exact price
gap |priceA - priceB| / priceA x 100 is at least 5 percent. The code stores
the BigNumber floor of that quantity, but flooring does not change the
comparison against the integer threshold 5, so the decision coincides with
the exact formula of the claim. -/
theorem priceGap_reversal (env : ScanEnv) (tokenA tokenB tokenC : Addr)
    (decimalsA : Nat) (direction : Bool) (pancakePrice biswapPrice : Nat)
    (hA : checkTriangularPrice (env.quote true) (10 ^ decimalsA)
      [tokenA, tokenB, tokenC, tokenA] = some pancakePrice)
    (hB : checkTriangularPrice (env.quote false) (10 ^ decimalsA)
      [tokenA, tokenB, tokenC, tokenA] = some biswapPrice)
    (hpos : pancakePrice ≠ 0) :
    (effectiveDirection (checkPriceGap env tokenA tokenB tokenC decimalsA) direction
        = !direction) ↔
      ((Int.natAbs ((pancakePrice : ℤ) - (biswapPrice : ℤ)) : ℚ) / (pancakePrice : ℚ) * 100
        ≥ 5) := by
  unfold checkPriceGap
  dsimp only []
  rw [hA, hB]
  dsimp only []
  rw [if_pos hpos, effectiveDirection_eq_not_iff]
  have hp : 0 < pancakePrice := Nat.pos_of_ne_zero hpos
  have hpq : (0 : ℚ) < (pancakePrice : ℚ) := by exact_mod_cast hp
  set d := Int.natAbs ((pancakePrice : ℤ) - (biswapPrice : ℤ)) with hd
  constructor
  · intro h
    have hnat : 5 ≤ d * 100 / pancakePrice := by exact_mod_cast h
    have hmul : 5 * pancakePrice ≤ d * 100 := (Nat.le_div_iff_mul_le hp).mp hnat
    rw [div_mul_eq_mul_div, ge_iff_le, le_div_iff₀ hpq]
    exact_mod_cast hmul
  · intro h
    rw [div_mul_eq_mul_div, ge_iff_le, le_div_iff₀ hpq] at h
    have hmul : 5 * pancakePrice ≤ d * 100 := by exact_mod_cast h
    have hnat : 5 ≤ d * 100 / pancakePrice := (Nat.le_div_iff_mul_le hp).mpr hmul
    exact_mod_cast hnat

/-- Environment for the reversal example: the triangular cycle of one token
A returns 100 on PancakeSwap and 94 on BiSwap (gap 6 percent). -/
def gapEnvSix : ScanEnv :=
  { minProfitPercentage := 0
    gasLimit := 0
    fees := defaultFeeParameters
    gasPriceWei := 0
    bnbPrice := 0
    tokenPrice := fun _ => 0
    details := fun a => { address := a, decimals := 0, symbolHasUSD := false }
    quote := fun isPancake amountIn _ tokenOut =>
      .ok (some (if tokenOut = 0 then (if isPancake then 100 else 94) else amountIn))
    oracle := fun _ _ _ => none }

/-- Environment for the no-reversal example: cycle outputs 100 and 97
(gap 3 percent). -/
def gapEnvThree : ScanEnv :=
  { gapEnvSix with
    quote := fun isPancake amountIn _ tokenOut =>
      .ok (some (if tokenOut = 0 then (if isPancake then 100 else 97) else amountIn)) }

lemma gapEnvSix_gap : checkPriceGap gapEnvSix 0 1 2 0 = 6 := by
  simp [checkPriceGap, checkTriangularPrice, triangularPriceBody, gapEnvSix, tryCatch,
    Bind.bind, Except.bind, Pure.pure, Except.pure]

lemma gapEnvThree_gap : checkPriceGap gapEnvThree 0 1 2 0 = 3 := by
  simp [checkPriceGap, checkTriangularPrice, triangularPriceBody, gapEnvThree, gapEnvSix,
    tryCatch, Bind.bind, Except.bind, Pure.pure, Except.pure]

/-- Witness for C3: the 6-percent example satisfies the hypotheses and the
theorem applies; evaluating both examples shows the 6-percent gap reverses
the requested direction and the 3-percent gap leaves it unreversed. -/
theorem priceGap_reversal_witness :
    (checkTriangularPrice (gapEnvSix.quote true) (10 ^ 0) [0, 1, 2, 0] = some 100) ∧
    (checkTriangularPrice (gapEnvSix.quote false) (10 ^ 0) [0, 1, 2, 0] = some 94) ∧
    ((100 : Nat) ≠ 0) ∧
    ((effectiveDirection (checkPriceGap gapEnvSix 0 1 2 0) true = !true) ↔
      ((Int.natAbs ((100 : ℤ) - (94 : ℤ)) : ℚ) / (100 : ℚ) * 100 ≥ 5)) ∧
    (effectiveDirection (checkPriceGap gapEnvSix 0 1 2 0) true = false) ∧
    (effectiveDirection (checkPriceGap gapEnvThree 0 1 2 0) true = true) :=
  ⟨by decide, by decide, by decide,
   priceGap_reversal gapEnvSix 0 1 2 0 true 100 94 (by decide) (by decide) (by decide),
   by rw [gapEnvSix_gap]; norm_num [effectiveDirection],
   by rw [gapEnvThree_gap]; norm_num [effectiveDirection]⟩

/-- Environment in which every router quote throws and the oracle fails. -/
def failEnv : ScanEnv :=
  { minProfitPercentage := 1
    gasLimit := 0
    fees := defaultFeeParameters
    gasPriceWei := 0
    bnbPrice := 0
    tokenPrice := fun _ => 0
    details := fun a => { address := a, decimals := 0, symbolHasUSD := false }
    quote := fun _ _ _ _ => .error ()
    oracle := fun _ _ _ => none }

/-- C7. A scan invocation is a total function into a (possibly empty) list
of opportunities: in the embedding every collaborator failure mode (thrown
quote, falsy amounts array, failed oracle call) is absorbed at the same call
site at which the source catches it, so no failure escapes. Moreover a
failed candidate degrades locally: an error outcome is never profitable, a
failed oracle call produces exactly the error outcome, a loan amount whose
swap simulation fails leaves the best-candidate accumulator untouched and is
transparent to the rest of the sweep, and the whole scan is the sort of
independent per-rotation contributions, so one rotation returning nothing
cannot affect any other. -/
theorem scan_isolated_failures (env : ScanEnv) :
    (∀ m : ℚ, isProfitable m .err = false) ∧
    (∀ (m : ℚ) (fees : FeeParameters) (gasPriceWei gasLimit : Nat)
      (bnbPrice tokenPriceUSD : ℚ) (decimals loanAmount : Nat) (direction : Bool),
      calculateProfit m fees none gasPriceWei gasLimit bnbPrice tokenPriceUSD decimals
        loanAmount direction = .err) ∧
    (∀ (direction : Bool) (tokenA tokenB tokenC : Addr) (decimalsA : Nat)
      (best : Option BestEntry) (loanAmount : Nat),
      calculateSwapOutputs env direction loanAmount tokenA tokenB tokenC = none →
      sweepStep env direction tokenA tokenB tokenC decimalsA best loanAmount = best) ∧
    (∀ (direction : Bool) (tokenA tokenB tokenC : Addr) (decimalsA : Nat)
      (best : Option BestEntry) (loanAmount : Nat) (pre post : List Nat),
      calculateSwapOutputs env direction loanAmount tokenA tokenB tokenC = none →
      (pre ++ loanAmount :: post).foldl (sweepStep env direction tokenA tokenB tokenC decimalsA)
          best =
        (pre ++ post).foldl (sweepStep env direction tokenA tokenB tokenC decimalsA) best) ∧
    (∀ pairs : List PairConfig,
      checkArbitrageOpportunities env pairs =
        (pairs.flatMap (fun cfg =>
          checkTriangularArbitrage env cfg true ++
          checkTriangularArbitrage env cfg false)).mergeSort oppLE) := by
  have hskip : ∀ (direction : Bool) (tokenA tokenB tokenC : Addr) (decimalsA : Nat)
      (best : Option BestEntry) (loanAmount : Nat),
      calculateSwapOutputs env direction loanAmount tokenA tokenB tokenC = none →
      sweepStep env direction tokenA tokenB tokenC decimalsA best loanAmount = best := by
    intro direction tokenA tokenB tokenC decimalsA best loanAmount h
    unfold sweepStep
    rw [h]
  refine ⟨fun _ => rfl, fun _ _ _ _ _ _ _ _ _ => rfl, hskip, ?_, fun _ => rfl⟩
  intro direction tokenA tokenB tokenC decimalsA best loanAmount pre post h
  rw [List.foldl_append, List.foldl_append, List.foldl_cons,
    hskip direction tokenA tokenB tokenC decimalsA _ loanAmount h]

/-- Witness for C7: with every quote throwing, a failing amount is skipped
while the sweep over the other amounts proceeds, and the scan still returns
a list. -/
theorem scan_isolated_failures_witness :
    (calculateSwapOutputs failEnv true 1 0 1 2 = none) ∧
    (sweepStep failEnv true 0 1 2 0 none 1 = none) ∧
    (([5, 1, 7] : List Nat).foldl (sweepStep failEnv true 0 1 2 0) none =
      ([5, 7] : List Nat).foldl (sweepStep failEnv true 0 1 2 0) none) ∧
    (checkArbitrageOpportunities failEnv [] = []) :=
  ⟨by decide,
   (scan_isolated_failures failEnv).2.2.1 true 0 1 2 0 none 1 (by decide),
   (scan_isolated_failures failEnv).2.2.2.1 true 0 1 2 0 none 1 [5] [7] (by decide),
   by simp [checkArbitrageOpportunities]⟩

/-! Embedding of the scan coordinator (ArbitrageBot). The two cron cadences
and the startup check share the single isRunning flag. A triggered cadence
first tests the flag and returns immediately when it is set; the test and
the assignment are separated by no suspension point, so they form one atomic
step of the event loop. The cycle body then runs across suspension points
and clears the flag in its finally block on every exit path; the clearing is
one more atomic step. runInitialCheck sets the flag without testing it, but
it is invoked synchronously after the cron tasks are created, before any
suspension point, so it is always the first event of a run. The model is a
trace of these atomic events. -/

/-- Shared coordinator state: the isRunning flag, and how many scan-cycle
bodies are currently between their flag set and their finally clear. -/
structure CoordState where
  isRunning : Bool
  active : Nat
deriving DecidableEq

/-- Atomic events of a run: a cadence trigger (either cron schedule fires,
or any later manual trigger), the startup check, and the finally block of a
running cycle. -/
inductive CoordEvent where
  | tick
  | startup
  | finish
deriving DecidableEq

/-- One atomic step: a tick tests and sets the flag (skipping when it is
set), the startup check sets the flag without testing, a finish clears it. -/
def coordStep (s : CoordState) : CoordEvent → CoordState
  | .tick => if s.isRunning then s else { isRunning := true, active := s.active + 1 }
  | .startup => { isRunning := true, active := s.active + 1 }
  | .finish => { isRunning := false, active := s.active - 1 }

/-- Trace validity from a state: a finish event needs a running cycle, and
the startup check never occurs here (it is the first event of a run and
fires exactly once). -/
def validFrom (s : CoordState) : List CoordEvent → Bool
  | [] => true
  | e :: rest =>
    (match e with
     | .tick => true
     | .startup => false
     | .finish => decide (0 < s.active)) && validFrom (coordStep s e) rest

/-- The state at process start: flag clear, nothing running. -/
def coordInit : CoordState := { isRunning := false, active := 0 }

/-- Running a trace of atomic events. -/
def coordRun (s : CoordState) (evs : List CoordEvent) : CoordState :=
  evs.foldl coordStep s

/-- The coordinator invariant: the flag is set exactly while one cycle body
is running. -/
def coordInv (s : CoordState) : Prop :=
  s.active = (if s.isRunning then 1 else 0)

lemma coordInv_run (evs : List CoordEvent) :
    ∀ s : CoordState, coordInv s → validFrom s evs = true →
      ∀ k, coordInv (coordRun s (evs.take k)) := by
  induction evs with
  | nil =>
    intro s hs _ k
    simpa [coordRun] using hs
  | cons e rest ih =>
    intro s hs hv k
    match k with
    | 0 => simpa [coordRun] using hs
    | k + 1 =>
      rw [List.take_succ_cons]
      show coordInv (coordRun (coordStep s e) (rest.take k))
      cases e with
      | tick =>
        simp only [validFrom, Bool.true_and] at hv
        refine ih _ ?_ hv k
        unfold coordInv at hs ⊢
        by_cases hr : s.isRunning
        · simpa [coordStep, hr] using hs
        · rw [if_neg hr] at hs
          simp [coordStep, hr, hs]
      | startup => simp [validFrom] at hv
      | finish =>
        simp only [validFrom, Bool.and_eq_true, decide_eq_true_eq] at hv
        obtain ⟨hpos, hv2⟩ := hv
        refine ih _ ?_ hv2 k
        unfold coordInv at hs ⊢
        have hone : s.active = 1 := by split at hs <;> omega
        simp [coordStep, hone]

/-- C4. Along every valid run — the startup check first (it always finds
the flag clear, the code sets it without testing), then any interleaving of
cadence triggers and cycle completions — at most one scan cycle is ever
running, and a cadence trigger that finds the flag set changes nothing: the
skipped invocation starts no cycle and runs no scan work. -/
theorem scanCoordinator_singleFlight (rest : List CoordEvent)
    (hvalid : validFrom (coordStep coordInit .startup) rest = true) :
    (∀ k, (coordRun (coordStep coordInit .startup) (rest.take k)).active ≤ 1) ∧
    (∀ s : CoordState, s.isRunning = true → coordStep s .tick = s) := by
  constructor
  · intro k
    have hinv : coordInv (coordStep coordInit .startup) := by
      simp [coordInv, coordStep, coordInit]
    have := coordInv_run rest (coordStep coordInit .startup) hinv hvalid k
    unfold coordInv at this
    rw [this]
    split <;> omega
  · intro s hr
    simp [coordStep, hr]

/-- Witness for C4: a concrete valid run with a tick that fires while the
startup scan is still in flight (and is skipped), a completion, and two more
ticks, stays within the single-flight bound; a set flag makes a tick a
no-op. -/
theorem scanCoordinator_singleFlight_witness :
    (validFrom (coordStep coordInit .startup)
      [.tick, .finish, .tick, .tick, .finish] = true) ∧
    (∀ k, (coordRun (coordStep coordInit .startup)
      (([.tick, .finish, .tick, .tick, .finish] : List CoordEvent).take k)).active ≤ 1) ∧
    (coordStep { isRunning := true, active := 1 } .tick = { isRunning := true, active := 1 }) :=
  ⟨by decide,
   (scanCoordinator_singleFlight [.tick, .finish, .tick, .tick, .finish] (by decide)).1,
   (scanCoordinator_singleFlight [] (by decide)).2 { isRunning := true, active := 1 } rfl⟩

/-! Embedding of RPCManager (the endpoint pool). Timestamps are Nat
milliseconds; the JS subtraction now - lastUsed compared against 500 agrees
with Nat truncated subtraction because a negative JS difference and a
truncated 0 both fail the > 500 test. -/

/-- Endpoint-pool state: the pool size, the rotation pointer, and the
per-endpoint consecutive-failure counts, last-used timestamps and health
flags (total functions read at indices below n). -/
structure RPCState where
  n : Nat
  currentIndex : Nat
  failCounts : Nat → Nat
  lastUsed : Nat → Nat
  healthStatus : Nat → Bool

/-- Pool state right after construction: pointer on the primary endpoint,
zero failures, never used, everything Healthy. -/
def initRPCState (n : Nat) : RPCState :=
  { n := n
    currentIndex := 0
    failCounts := fun _ => 0
    lastUsed := fun _ => 0
    healthStatus := fun _ => true }

/-- Pointwise array-entry update. -/
def updFn {α : Type} (f : Nat → α) (i : Nat) (v : α) : Nat → α :=
  fun j => if j = i then v else f j

/-- The three selection conditions of getProvider: Healthy, fewer than 3
consecutive failures, and last used more than 500 ms ago. -/
def qualifies (now : Nat) (s : RPCState) (i : Nat) : Bool :=
  s.healthStatus i && decide (s.failCounts i < 3) && decide (now - s.lastUsed i > 500)

/-- The rotation ring scanned by the getProvider loop: the indices
(cur + i + 1) % n for i = 0 .. n - 1, of which the last is cur itself. -/
def scanRing (cur n : Nat) : List Nat :=
  (List.range n).map (fun i => (cur + i + 1) % n)

/-- RPCManager.getProvider: keep the current endpoint when it qualifies;
otherwise switch to the first qualifying endpoint of the ring; otherwise
reset every failure count, move back to the primary endpoint, stamp it used
and return it. Returns the updated state and the chosen index. -/
def getProvider (now : Nat) (s : RPCState) : RPCState × Nat :=
  if qualifies now s s.currentIndex then
    ({ s with lastUsed := updFn s.lastUsed s.currentIndex now }, s.currentIndex)
  else
    match (scanRing s.currentIndex s.n).find? (fun idx => qualifies now s idx) with
    | some idx =>
      ({ s with currentIndex := idx, lastUsed := updFn s.lastUsed idx now }, idx)
    | none =>
      ({ s with failCounts := fun _ => 0
                currentIndex := 0
                lastUsed := updFn s.lastUsed 0 now }, 0)

/-- RPCManager.reportFailure: increment the current endpoint failure count;
on reaching 3, mark the endpoint Unhealthy, schedule the cooldown timer and
advance the rotation pointer. Returns the new state and whether a cooldown
timer was scheduled. -/
def reportFailure (s : RPCState) : RPCState × Bool :=
  let cur := s.currentIndex
  let newCount := s.failCounts cur + 1
  let s' := { s with failCounts := updFn s.failCounts cur newCount }
  if newCount ≥ 3 then
    ({ s' with healthStatus := updFn s'.healthStatus cur false
               currentIndex := (cur + 1) % s.n }, true)
  else (s', false)

/-- The body of the cooldown setTimeout callback scheduled by reportFailure.
The arrow function closes over this, not over the index that failed: when
the timer fires it reads this.currentIndex as it is at fire time — which
reportFailure has already advanced — and resets that endpoint. -/
def cooldownFire (s : RPCState) : RPCState :=
  { s with healthStatus := updFn s.healthStatus s.currentIndex true
           failCounts := updFn s.failCounts s.currentIndex 0 }

/-- RPCManager.reportSuccess: clear the current endpoint failure count. -/
def reportSuccess (s : RPCState) : RPCState :=
  { s with failCounts := updFn s.failCounts s.currentIndex 0 }

/-- The pool state of a two-endpoint pool after three consecutive
reportFailure calls from the initial state. -/
def threeFailuresState : RPCState :=
  (reportFailure (reportFailure (reportFailure (initRPCState 2)).1).1).1

/-- C5, evaluated at the failing input. In a two-endpoint pool, the 3rd
consecutive reportFailure marks endpoint 0 Unhealthy, schedules the cooldown
timer and advances the pointer to endpoint 1 — the first half of the claim
holds. But when the cooldown fires, the callback resets the endpoint that is
current at fire time, endpoint 1, and leaves endpoint 0 Unhealthy with its
failure count still 3: the claimed return of the failed endpoint to Healthy
with a reset count does not happen. -/
theorem cooldown_resets_wrong_endpoint :
    ((reportFailure (reportFailure (reportFailure (initRPCState 2)).1).1).2 = true) ∧
    (threeFailuresState.healthStatus 0 = false ∧
     threeFailuresState.failCounts 0 = 3 ∧
     threeFailuresState.currentIndex = 1) ∧
    ((cooldownFire threeFailuresState).healthStatus 0 = false ∧
     (cooldownFire threeFailuresState).failCounts 0 = 3 ∧
     (cooldownFire threeFailuresState).healthStatus 1 = true ∧
     (cooldownFire threeFailuresState).failCounts 1 = 0) := by
  decide

/-- C6. getProvider keeps the currently-selected endpoint whenever it is
Healthy, under 3 consecutive failures and idle for more than 500 ms;
otherwise it switches to the first endpoint of the rotation ring (which
starts just after the current index) meeting those three conditions; and
when no endpoint of the pool qualifies it resets every failure count,
selects the primary endpoint and returns it — it always returns an index
and never blocks. -/
theorem getProvider_selection (now : Nat) (s : RPCState) :
    (qualifies now s s.currentIndex = true →
      getProvider now s =
        ({ s with lastUsed := updFn s.lastUsed s.currentIndex now }, s.currentIndex)) ∧
    (qualifies now s s.currentIndex = false →
      ∀ idx, (scanRing s.currentIndex s.n).find? (fun i => qualifies now s i) = some idx →
        qualifies now s idx = true ∧
        (∃ pre post, scanRing s.currentIndex s.n = pre ++ idx :: post ∧
          ∀ j ∈ pre, qualifies now s j = false) ∧
        getProvider now s =
          ({ s with currentIndex := idx, lastUsed := updFn s.lastUsed idx now }, idx)) ∧
    (s.currentIndex < s.n →
      (∀ i, i < s.n → qualifies now s i = false) →
      getProvider now s =
        ({ s with failCounts := fun _ => 0
                  currentIndex := 0
                  lastUsed := updFn s.lastUsed 0 now }, 0)) := by
  refine ⟨?_, ?_, ?_⟩
  · intro hq
    unfold getProvider
    rw [if_pos hq]
  · intro hq idx hfind
    obtain ⟨hpidx, pre, post, hsplit, hpre⟩ := List.find?_eq_some.mp hfind
    refine ⟨hpidx, ⟨pre, post, hsplit, ?_⟩, ?_⟩
    · intro j hj
      have := hpre j hj
      simpa using this
    · unfold getProvider
      rw [if_neg (by simp [hq]), hfind]
  · intro hcur hall
    have hfind : (scanRing s.currentIndex s.n).find? (fun i => qualifies now s i) = none := by
      rw [List.find?_eq_none]
      intro x hx
      obtain ⟨i, _, hxi⟩ := List.mem_map.mp hx
      have hxlt : x < s.n := by
        subst hxi
        exact Nat.mod_lt _ (Nat.pos_of_ne_zero (by omega))
      simp [hall x hxlt]
    unfold getProvider
    rw [if_neg (by simp [hall s.currentIndex hcur]), hfind]

/-- A pool whose current endpoint has hit the failure threshold while the
other endpoints are idle and Healthy. -/
def poolBusyCurrent : RPCState :=
  { n := 3
    currentIndex := 0
    failCounts := fun i => if i = 0 then 3 else 0
    lastUsed := fun _ => 0
    healthStatus := fun _ => true }

/-- A pool in which every endpoint has hit the failure threshold. -/
def poolAllFailed : RPCState :=
  { n := 3
    currentIndex := 0
    failCounts := fun _ => 3
    lastUsed := fun _ => 0
    healthStatus := fun _ => true }

/-- Witness for C6: with the current endpoint over the failure threshold the
pool rotates to endpoint 1, the first qualifying endpoint after the current
index; with every endpoint failed it resets all counts and returns the
primary; with a fresh pool it keeps the current endpoint. -/
theorem getProvider_selection_witness :
    ((qualifies 1000 poolBusyCurrent 0 = false) ∧
      (scanRing 0 3).find? (fun i => qualifies 1000 poolBusyCurrent i) = some 1 ∧
      (getProvider 1000 poolBusyCurrent).2 = 1) ∧
    ((∀ i, i < 3 → qualifies 1000 poolAllFailed i = false) ∧
      (getProvider 1000 poolAllFailed).2 = 0 ∧
      (getProvider 1000 poolAllFailed).1.failCounts = (fun _ => 0) ∧
      (getProvider 1000 poolAllFailed).1.currentIndex = 0) ∧
    (qualifies 1000 (initRPCState 3) 0 = true ∧
      (getProvider 1000 (initRPCState 3)).2 = 0) := by
  have h2 := ((getProvider_selection 1000 poolBusyCurrent).2.1 (by decide) 1 (by decide))
  have h3 := ((getProvider_selection 1000 poolAllFailed).2.2 (by decide)
    (by decide))
  have h1 := ((getProvider_selection 1000 (initRPCState 3)).1 (by decide))
  refine ⟨⟨by decide, by decide, ?_⟩, ⟨by decide, ?_, ?_, ?_⟩, ⟨by decide, ?_⟩⟩
  · rw [h2.2.2]
  · rw [h3]
  · rw [h3]
  · rw [h3]
  · rw [h1]
    rfl

/-! Embedding of NetworkService (the network condition monitor). -/

/-- The single networkHealth record of NetworkService. -/
structure NetworkHealth where
  lastCheckTime : Nat
  isHealthy : Bool
  failedAttempts : Nat
  gasPrice : Nat
deriving DecidableEq

/-- The buffer applied on the m > 1 paths of getGasPrice:
price.mul(Math.floor(multiplier * 100)).div(100) in BigNumber integer
arithmetic. -/
def applyBuffer (m : ℚ) (price : Nat) : Nat :=
  price * (⌊m * 100⌋).toNat / 100

/-- NetworkService.getGasPrice: reuse the stored gas price while the last
sample is younger than 2 minutes, otherwise sample afresh and store it; on
either of those paths apply the buffer multiplier when it exceeds 1; when
sampling throws, the catch block returns the stored price as is. The sample
argument is the provider.getGasPrice call outcome. -/
def getGasPrice (m : ℚ) (now : Nat) (sample : Except Unit Nat)
    (nh : NetworkHealth) : NetworkHealth × Nat :=
  if now - nh.lastCheckTime < 2 * 60 * 1000 then
    (nh, if m > 1 then applyBuffer m nh.gasPrice else nh.gasPrice)
  else
    match sample with
    | .ok g => ({ nh with gasPrice := g }, if m > 1 then applyBuffer m g else g)
    | .error _ => (nh, nh.gasPrice)

/-- A network-health record whose last sample is long past. -/
def staleHealth : NetworkHealth :=
  { lastCheckTime := 0, isHealthy := true, failedAttempts := 0, gasPrice := 100 }

/-- C9 counterexample. The claim fails on the sampling-failure path: with a
stale cache, a failing provider call and the default multiplier 1.1, the
stored fallback price 100 is returned as is, not multiplied by the rounded
buffer (which would give 110): the buffer is not applied to the stored
fallback price. -/
theorem gasPrice_fallback_unbuffered_counterexample :
    (getGasPrice (11 / 10) 200000 (.error ()) staleHealth).2 = 100 ∧
    applyBuffer (11 / 10) staleHealth.gasPrice = 110 ∧
    (getGasPrice (11 / 10) 200000 (.error ()) staleHealth).2 ≠
      applyBuffer (11 / 10) staleHealth.gasPrice := by
  refine ⟨?_, ?_, ?_⟩
  · norm_num [getGasPrice, staleHealth]
  · norm_num [applyBuffer, staleHealth]
    decide
  · norm_num [getGasPrice, applyBuffer, staleHealth]
    decide

/-- C9 amended. The value returned by the gas-price query with buffer
multiplier m is: the stored price when the last sample is less than
2 minutes old, otherwise the freshly sampled price (which is also stored) —
in both cases multiplied by floor(100 m) and integer-divided by 100 when
m > 1 and returned unbuffered when m ≤ 1; but when sampling fails, the
stored fallback price is returned with no buffer applied. -/
theorem getGasPrice_spec (m : ℚ) (now : Nat) (sample : Except Unit Nat)
    (nh : NetworkHealth) :
    (now - nh.lastCheckTime < 2 * 60 * 1000 →
      getGasPrice m now sample nh =
        (nh, if m > 1 then applyBuffer m nh.gasPrice else nh.gasPrice)) ∧
    (¬ now - nh.lastCheckTime < 2 * 60 * 1000 →
      (∀ g, sample = .ok g →
        getGasPrice m now sample nh =
          ({ nh with gasPrice := g }, if m > 1 then applyBuffer m g else g)) ∧
      (sample = .error () →
        getGasPrice m now sample nh = (nh, nh.gasPrice))) := by
  refine ⟨?_, ?_⟩
  · intro hfresh
    unfold getGasPrice
    rw [if_pos hfresh]
  · intro hstale
    refine ⟨?_, ?_⟩
    · intro g hg
      subst hg
      unfold getGasPrice
      rw [if_neg hstale]
    · intro hg
      subst hg
      unfold getGasPrice
      rw [if_neg hstale]

/-- Witness for the amended C9: a fresh cache at price 100 with m = 1.1
returns 110; a stale cache with a successful sample 50 stores and buffers
it to 55; a stale cache with a failing sample returns the stored 100. -/
theorem getGasPrice_spec_witness :
    ((100 - (99999 : Nat) < 2 * 60 * 1000) ∧
      getGasPrice (11 / 10) 100 (.ok 7)
        { lastCheckTime := 99999, isHealthy := true, failedAttempts := 0, gasPrice := 100 } =
        ({ lastCheckTime := 99999, isHealthy := true, failedAttempts := 0, gasPrice := 100 },
          110)) ∧
    ((¬ (200000 : Nat) - 0 < 2 * 60 * 1000) ∧
      getGasPrice (11 / 10) 200000 (.ok 50) staleHealth =
        ({ staleHealth with gasPrice := 50 }, 55)) ∧
    (getGasPrice (11 / 10) 200000 (.error ()) staleHealth = (staleHealth, 100)) := by
  have hb110 : applyBuffer (11 / 10) 100 = 110 := by
    norm_num [applyBuffer]
    decide
  have hb55 : applyBuffer (11 / 10) 50 = 55 := by
    norm_num [applyBuffer]
    decide
  have hm : (1 : ℚ) < 11 / 10 := by norm_num
  refine ⟨⟨by norm_num, ?_⟩, ⟨by norm_num, ?_⟩, ?_⟩
  · rw [(getGasPrice_spec (11 / 10) 100 (.ok 7) _).1 (by norm_num), if_pos hm, hb110]
  · rw [((getGasPrice_spec (11 / 10) 200000 (.ok 50) staleHealth).2
      (by norm_num [staleHealth])).1 50 rfl, if_pos hm, hb55]
  · exact ((getGasPrice_spec (11 / 10) 200000 (.error ()) staleHealth).2
      (by norm_num [staleHealth])).2 rfl

/-! Embedding of PriceService (reference pricing with caching). -/

/-- The token-address constants and the PancakeSwap quote collaborator seen
by PriceService. A quote is getAmountsOut on a two-token path, collapsed to
its amounts[1] entry: .error is a thrown call, .ok none a falsy or short
amounts array, .ok (some v) the quoted output. -/
structure PriceEnv where
  busd : Addr
  usdt : Addr
  usdc : Addr
  dai : Addr
  wbnb : Addr
  quote : Nat → Addr → Addr → Except Unit (Option Nat)

/-- PriceService mutable state: the BNB reference rate with its fetch time,
and the per-token price cache with per-entry timestamps. -/
structure PriceState where
  bnbPrice : ℚ
  lastUpdated : Nat
  priceCache : Addr → Option (ℚ × Nat)

/-- PriceService state at construction: default rate 300, never updated,
empty cache. -/
def initPriceState : PriceState :=
  { bnbPrice := 300, lastUpdated := 0, priceCache := fun _ => none }

/-- The recognized stable-value tokens of getTokenPriceUSD. -/
def isStableToken (env : PriceEnv) (t : Addr) : Bool :=
  t == env.busd || t == env.usdt || t == env.usdc || t == env.dai

/-- PriceService.updateBnbPrice: quote one WBNB to BUSD on PancakeSwap; a
successful quote stores the formatted price with the fetch time; any failure
(a thrown call, or a falsy result whose element access then throws inside
the try) keeps the previous price and timestamp. -/
def updateBnbPrice (env : PriceEnv) (now : Nat) (st : PriceState) : PriceState × ℚ :=
  match env.quote (10 ^ 18) env.wbnb env.busd with
  | .ok (some v) =>
    let price := formatUnitsQ v 18
    ({ st with bnbPrice := price, lastUpdated := now }, price)
  | _ => (st, st.bnbPrice)

/-- The body of getTokenPriceUSD past the cache check: 1 for stable tokens;
for WBNB the reference rate, refreshed first when older than 10 minutes;
for other tokens a one-hop quote to BUSD or, failing that, a two-hop quote
via WBNB (again refreshing the rate first when stale), caching any fetched
price under the token with the current time; 0 when nothing resolves. -/
def priceBody (env : PriceEnv) (now : Nat) (st : PriceState)
    (tokenAddress : Addr) (decimals : Nat) : PriceState × ℚ :=
  if isStableToken env tokenAddress then (st, 1)
  else if tokenAddress == env.wbnb then
    let st' := if now - st.lastUpdated > 10 * 60 * 1000
               then (updateBnbPrice env now st).1 else st
    (st', st'.bnbPrice)
  else
    let amountIn := 10 ^ decimals
    match env.quote amountIn tokenAddress env.busd with
    | .ok (some v) =>
      let price := formatUnitsQ v 18
      ({ st with priceCache := updFn st.priceCache tokenAddress (some (price, now)) },
       price)
    | _ =>
      match env.quote amountIn tokenAddress env.wbnb with
      | .ok (some v) =>
        let st' := if now - st.lastUpdated > 10 * 60 * 1000
                   then (updateBnbPrice env now st).1 else st
        let price := formatUnitsQ v 18 * st'.bnbPrice
        ({ st' with priceCache := updFn st'.priceCache tokenAddress (some (price, now)) },
         price)
      | _ => (st, 0)

/-- PriceService.getTokenPriceUSD: return a cached price younger than
5 minutes, otherwise run the pricing body. -/
def getTokenPriceUSD (env : PriceEnv) (now : Nat) (st : PriceState)
    (tokenAddress : Addr) (decimals : Nat) : PriceState × ℚ :=
  match st.priceCache tokenAddress with
  | some (price, ts) =>
    if now - ts < 5 * 60 * 1000 then (st, price)
    else priceBody env now st tokenAddress decimals
  | none => priceBody env now st tokenAddress decimals

/-- Cache cleanliness: stable tokens and the native wrapped asset are never
cached (only the two non-native quote paths write the cache). It holds at
construction and is preserved by every call, so the cache check that code
performs before the stable-token test can never preempt it. -/
def cacheClean (env : PriceEnv) (st : PriceState) : Prop :=
  ∀ t, (isStableToken env t = true ∨ t = env.wbnb) → st.priceCache t = none

/-- The token did not get a fresh answer from the cache. -/
def cacheMiss (now : Nat) (st : PriceState) (t : Addr) : Prop :=
  ∀ price ts, st.priceCache t = some (price, ts) → ¬ now - ts < 5 * 60 * 1000

/-- A quote outcome on which the one-hop or two-hop path falls through. -/
def quoteFailed (x : Except Unit (Option Nat)) : Prop :=
  ∀ v, x ≠ .ok (some v)

lemma cacheClean_init (env : PriceEnv) : cacheClean env initPriceState :=
  fun _ _ => rfl

lemma updateBnbPrice_cache (env : PriceEnv) (now : Nat) (st : PriceState) :
    ((updateBnbPrice env now st).1).priceCache = st.priceCache := by
  unfold updateBnbPrice
  split <;> rfl

lemma getTokenPriceUSD_of_miss (env : PriceEnv) (now : Nat) (st : PriceState)
    (t : Addr) (dec : Nat) (hmiss : cacheMiss now st t) :
    getTokenPriceUSD env now st t dec = priceBody env now st t dec := by
  unfold getTokenPriceUSD
  split
  · next price ts heq =>
    rw [if_neg (hmiss price ts heq)]
  · rfl

lemma cacheClean_priceBody (env : PriceEnv) (now : Nat) (st : PriceState)
    (t : Addr) (dec : Nat) (h : cacheClean env st) :
    cacheClean env (priceBody env now st t dec).1 := by
  unfold priceBody
  by_cases hst : isStableToken env t = true
  · simpa [hst] using h
  · rw [if_neg hst]
    by_cases hw : (t == env.wbnb) = true
    · rw [if_pos hw]
      dsimp only []
      split
      · intro x hx
        rw [updateBnbPrice_cache]
        exact h x hx
      · exact h
    · rw [if_neg hw]
      have hne : ∀ x, (isStableToken env x = true ∨ x = env.wbnb) → x ≠ t := by
        intro x hx hxt
        subst hxt
        rcases hx with hx | hx
        · exact hst hx
        · exact hw (by simp [hx])
      dsimp only []
      split
      · intro x hx
        dsimp only []
        rw [updFn, if_neg (hne x hx)]
        exact h x hx
      · split
        · intro x hx
          dsimp only []
          rw [updFn, if_neg (hne x hx)]
          split
          · rw [updateBnbPrice_cache]
            exact h x hx
          · exact h x hx
        · exact h

lemma cacheClean_getTokenPriceUSD (env : PriceEnv) (now : Nat) (st : PriceState)
    (t : Addr) (dec : Nat) (h : cacheClean env st) :
    cacheClean env (getTokenPriceUSD env now st t dec).1 := by
  unfold getTokenPriceUSD
  split
  · next price ts heq =>
    split
    · exact h
    · exact cacheClean_priceBody env now st t dec h
  · exact cacheClean_priceBody env now st t dec h

/-- C8. Under the cache-cleanliness invariant (true at construction and
preserved by every call): getTokenPriceUSD returns 1 for every recognized
stable-value token; for the native wrapped asset it returns the reference
rate, refreshed first when older than 10 minutes; a cached price younger
than 5 minutes is returned as is; otherwise the fresh price is the one-hop
quote to the stable token, or failing that the two-hop quote through the
native asset (at the possibly refreshed rate), both cached; and 0 when no
pricing path resolves; finally, the invariant is preserved. -/
theorem getTokenPriceUSD_paths (env : PriceEnv) (now : Nat) (st : PriceState)
    (t : Addr) (dec : Nat) (hclean : cacheClean env st) :
    (isStableToken env t = true → getTokenPriceUSD env now st t dec = (st, 1)) ∧
    (isStableToken env t = false → t = env.wbnb →
      getTokenPriceUSD env now st t dec =
        (if now - st.lastUpdated > 10 * 60 * 1000
         then ((updateBnbPrice env now st).1, ((updateBnbPrice env now st).1).bnbPrice)
         else (st, st.bnbPrice))) ∧
    (∀ price ts, st.priceCache t = some (price, ts) → now - ts < 5 * 60 * 1000 →
      getTokenPriceUSD env now st t dec = (st, price)) ∧
    (cacheMiss now st t → isStableToken env t = false → t ≠ env.wbnb →
      (∀ v, env.quote (10 ^ dec) t env.busd = .ok (some v) →
        getTokenPriceUSD env now st t dec =
          ({ st with priceCache := updFn st.priceCache t (some (formatUnitsQ v 18, now)) },
           formatUnitsQ v 18)) ∧
      (quoteFailed (env.quote (10 ^ dec) t env.busd) →
        (∀ v, env.quote (10 ^ dec) t env.wbnb = .ok (some v) →
          getTokenPriceUSD env now st t dec =
            (let st' := (if now - st.lastUpdated > 10 * 60 * 1000
                         then (updateBnbPrice env now st).1 else st);
             let newCache := updFn st'.priceCache t
               (some (formatUnitsQ v 18 * st'.bnbPrice, now));
             ({ st' with priceCache := newCache },
              formatUnitsQ v 18 * st'.bnbPrice))) ∧
        (quoteFailed (env.quote (10 ^ dec) t env.wbnb) →
          getTokenPriceUSD env now st t dec = (st, 0)))) ∧
    cacheClean env (getTokenPriceUSD env now st t dec).1 := by
  refine ⟨?_, ?_, ?_, ?_, cacheClean_getTokenPriceUSD env now st t dec hclean⟩
  · intro hst
    rw [getTokenPriceUSD_of_miss env now st t dec
      (by intro p ts hp; rw [hclean t (Or.inl hst)] at hp; cases hp)]
    unfold priceBody
    rw [if_pos hst]
  · intro hst hw
    rw [getTokenPriceUSD_of_miss env now st t dec
      (by intro p ts hp; rw [hclean t (Or.inr hw)] at hp; cases hp)]
    unfold priceBody
    rw [if_neg (by simp [hst]), if_pos (by simp [hw])]
    dsimp only []
    split <;> rfl
  · intro price ts hcache hfresh
    unfold getTokenPriceUSD
    rw [hcache]
    dsimp only []
    rw [if_pos hfresh]
  · intro hmiss hst hw
    rw [getTokenPriceUSD_of_miss env now st t dec hmiss]
    unfold priceBody
    rw [if_neg (by simp [hst]), if_neg (by simp [hw])]
    dsimp only []
    refine ⟨?_, fun hq1 => ⟨?_, ?_⟩⟩
    · intro v hq
      rw [hq]
    · intro v hq2
      match hr1 : env.quote (10 ^ dec) t env.busd with
      | .ok (some w) => exact absurd hr1 (hq1 w)
      | .ok none =>
        dsimp only []
        rw [hq2]
      | .error e =>
        dsimp only []
        rw [hq2]
    · intro hq2
      match hr1 : env.quote (10 ^ dec) t env.busd with
      | .ok (some w) => exact absurd hr1 (hq1 w)
      | .ok none =>
        dsimp only []
        match hr2 : env.quote (10 ^ dec) t env.wbnb with
        | .ok (some w) => exact absurd hr2 (hq2 w)
        | .ok none => rfl
        | .error e => rfl
      | .error e =>
        dsimp only []
        match hr2 : env.quote (10 ^ dec) t env.wbnb with
        | .ok (some w) => exact absurd hr2 (hq2 w)
        | .ok none => rfl
        | .error e => rfl

/-- Concrete pricing environment: stable tokens at addresses 1-4, WBNB at
5; only the path from token 6 to BUSD has liquidity, quoting one whole
18-decimals token at 2 BUSD. -/
def priceEnvW : PriceEnv :=
  { busd := 1, usdt := 2, usdc := 3, dai := 4, wbnb := 5
    quote := fun _ tokenIn tokenOut =>
      if tokenIn == 6 && tokenOut == 1 then .ok (some (2 * 10 ^ 18)) else .error () }

/-- Witness for C8: on the fresh state, a stable token prices at 1; WBNB
returns the stored reference rate 300 (the stale refresh fails and keeps
it); token 6 prices at 2 through the one-hop quote and is cached with the
call time; token 7 resolves nowhere and prices at 0. -/
theorem getTokenPriceUSD_paths_witness :
    (isStableToken priceEnvW 1 = true ∧
      getTokenPriceUSD priceEnvW 1000000 initPriceState 1 18 = (initPriceState, 1)) ∧
    (getTokenPriceUSD priceEnvW 1000000 initPriceState 5 18 = (initPriceState, 300)) ∧
    (getTokenPriceUSD priceEnvW 1000000 initPriceState 6 18 =
      ({ initPriceState with
          priceCache := updFn initPriceState.priceCache 6 (some (2, 1000000)) }, 2)) ∧
    (getTokenPriceUSD priceEnvW 1000000 initPriceState 7 18 = (initPriceState, 0)) := by
  have hmiss : ∀ t, cacheMiss 1000000 initPriceState t := fun _ _ _ h => nomatch h
  refine ⟨⟨by decide, ?_⟩, ?_, ?_, ?_⟩
  · exact (getTokenPriceUSD_paths priceEnvW 1000000 initPriceState 1 18
      (cacheClean_init _)).1 (by decide)
  · have h5 := (getTokenPriceUSD_paths priceEnvW 1000000 initPriceState 5 18
      (cacheClean_init _)).2.1 (by decide) rfl
    rw [h5]
    norm_num [updateBnbPrice, priceEnvW, initPriceState]
  · have h6 := ((getTokenPriceUSD_paths priceEnvW 1000000 initPriceState 6 18
      (cacheClean_init _)).2.2.2.1 (hmiss 6) (by decide) (by decide)).1
      (2 * 10 ^ 18) rfl
    rw [h6]
    norm_num [formatUnitsQ]
  · have hfailb : quoteFailed (priceEnvW.quote (10 ^ 18) 7 priceEnvW.busd) :=
      fun _ h => nomatch h
    have hfailw : quoteFailed (priceEnvW.quote (10 ^ 18) 7 priceEnvW.wbnb) :=
      fun _ h => nomatch h
    exact (((getTokenPriceUSD_paths priceEnvW 1000000 initPriceState 7 18
      (cacheClean_init _)).2.2.2.1 (hmiss 7) (by decide) (by decide)).2 hfailb).2 hfailw

end TriArb
